import Mathlib

/- Shallow embedding of src/lib/speechBridge.js (createSpeechBridge).

   Modelling conventions:
   - JS strings are Lean Strings; the JS string/array primitives used by the
     source (split, join, trim, slice(-n), substring) are embedded below with
     JS semantics (in particular split keeps empty segments, including a
     trailing one).
   - The JS numbers that matter are rationals: retryDelay only ever takes
     values of the form 100 * 1.5 ^ k capped at 3000, all exactly
     representable, and nLines is a JS number that setNLines may set to any
     finite non-negative value.
   - Timers (setTimeout / setInterval) are modelled as armed flags or armed
     payloads inside the bridge state, with separate fire functions that embed
     the corresponding callback bodies; clearTimeout is modelled by disarming.
   - Consumer callbacks may throw; they are modelled as functions into
     Except Unit Unit, and the try/catch-with-empty-catch wrappers of the
     source are embedded by the function guarded below. Operations log the
     emissions they perform as a list of Effect values.
   - Date.now() is passed in explicitly as a Nat parameter named now where a
     handler reads the clock. Timestamps inside debug strings are omitted.
   - The external recognition service is an oracle: Env says whether the
     SpeechRecognition constructor exists and whether a start() call throws
     synchronously. rec.start() and rec.abort() are commands to the service
     and are logged as effects; the _isStarted flag only changes when the
     service delivers onstart/onend events, as in the source. -/

namespace SpeechBridge

/-- JS whitespace test used by the String.prototype.trim embedding (the
    common whitespace subset). -/
def jsWhitespace (c : Char) : Bool :=
  c = ' ' || c = '\t' || c = '\n' || c = '\r'

/-- Embeds JS String.prototype.trim. -/
def jsTrim (s : String) : String :=
  ⟨((s.data.dropWhile jsWhitespace).reverse.dropWhile jsWhitespace).reverse⟩

/-- Embeds JS Array.prototype.join(sep). -/
def jsJoin (sep : String) : List String → String
  | [] => ""
  | [x] => x
  | x :: y :: xs => x ++ sep ++ jsJoin sep (y :: xs)

/-- Fueled splitter implementing JS String.prototype.split with a non-empty
    separator: keeps empty segments, including a trailing one. The fuel is
    the length of the input, which is always enough since every step consumes
    at least one character. -/
def splitCharsAux (sep : List Char) : Nat → List Char → List (List Char)
  | _, [] => [[]]
  | 0, cs => [cs]
  | fuel + 1, c :: rest =>
    if 0 < sep.length ∧ sep.isPrefixOf (c :: rest) then
      [] :: splitCharsAux sep fuel ((c :: rest).drop sep.length)
    else
      match splitCharsAux sep fuel rest with
      | [] => [[c]]
      | r :: rs => (c :: r) :: rs

/-- Embeds JS s.split(sep) for a non-empty separator string. -/
def jsSplit (s sep : String) : List String :=
  (splitCharsAux sep.data s.data.length s.data).map (fun cs => ⟨cs⟩)

/-- Embeds JS Array.prototype.slice(-n) (for n positive): the last n elements,
    or the whole array when it is shorter. -/
def jsSliceLast (n : Nat) (l : List String) : List String :=
  l.drop (l.length - n)

/-- Embeds JS String.prototype.substring(0, n). -/
def jsTake (n : Nat) (s : String) : String :=
  ⟨s.data.take n⟩

/-- Embeds JS String(n).padStart(2, "0") for a natural number. -/
def pad2 (n : Nat) : String :=
  if n < 10 then "0" ++ toString n else toString n

/-- A JS number as needed here: NaN, an infinity, or a finite value. -/
inductive JSNum where
  | nan
  | posInf
  | negInf
  | num (q : ℚ)
deriving DecidableEq

/-- Embeds Number.isFinite. -/
def JSNum.isFiniteJS : JSNum → Bool
  | .num _ => true
  | _ => false

/-- Embeds the JS comparison n >= 0 (false for NaN). -/
def JSNum.geZeroJS : JSNum → Bool
  | .num q => decide (0 ≤ q)
  | .posInf => true
  | .negInf => false
  | .nan => false

/-- The finite value of a JS number (defaulting to 0; only read under an
    isFiniteJS guard). -/
def JSNum.valJS : JSNum → ℚ
  | .num q => q
  | _ => 0

/- ── CONFIG constants of the source ─────────────────────────────────── -/

def WATCHDOG_TIMEOUT_MS : Nat := 3100
def WATCHDOG_CHECK_INTERVAL_MS : Nat := 1000
def INITIAL_RETRY_DELAY_MS : ℚ := 100
def MAX_RETRY_DELAY_MS : ℚ := 3000
def RETRY_MULTIPLIER : ℚ := 3 / 2
def USE_DUAL_RECOGNITION : Bool := true
def OVERLAP_RESTART_DELAY_MS : Nat := 50
def MAX_CONSECUTIVE_ERRORS : Nat := 10
def ERROR_COOLDOWN_MS : Nat := 3000
def RESULT_DEBOUNCE_MS : Nat := 100

/- ── Data model ─────────────────────────────────────────────────────── -/

/-- One SpeechRecognition instance handle as the bridge sees it: its label
    (rec._label), its language tag (rec.lang) and rec._isStarted. -/
structure RecInstance where
  label : String
  lang : String
  isStarted : Bool
deriving DecidableEq

/-- The mutable module state of createSpeechBridge. partialText is the
    source variable currentPartial. restartTimeout stores the failed label
    and the delay the timer was armed with; cooldownTimer models the
    anonymous setTimeout armed by handleTooManyErrors. -/
structure BridgeState where
  recognition : Option RecInstance
  recognitionBackup : Option RecInstance
  activeRecognition : String
  transcribedAll : String
  nLines : ℚ
  partialText : String
  pendingFinals : List String
  isRecording : Bool
  shouldBeRecording : Bool
  startTime : Nat
  lastEventTime : Nat
  retryDelay : ℚ
  consecutiveErrors : Nat
  isRestarting : Bool
  restartTimeout : Option (String × ℚ)
  resultDebounceTimer : Bool
  watchdogActive : Bool
  timerActive : Bool
  cooldownTimer : Bool
deriving DecidableEq

/-- The consumer-supplied callbacks; each may throw (Except.error ()). -/
structure Callbacks where
  onBanner : String → Except Unit Unit
  onStatus : Bool → Except Unit Unit
  onTimer : String → Except Unit Unit
  onTranscriptHtml : String → Except Unit Unit
  onPartialText : String → Except Unit Unit
  onDebug : String → Except Unit Unit
  scheduleAutosaveCb : Unit → Except Unit Unit

/-- Callbacks that always return normally. -/
def pureCallbacks : Callbacks where
  onBanner := fun _ => .ok ()
  onStatus := fun _ => .ok ()
  onTimer := fun _ => .ok ()
  onTranscriptHtml := fun _ => .ok ()
  onPartialText := fun _ => .ok ()
  onDebug := fun _ => .ok ()
  scheduleAutosaveCb := fun _ => .ok ()

/-- The external environment: whether the SpeechRecognition constructor is
    available, what the consumer getLanguage option returns, and whether a
    rec.start() command throws synchronously. -/
structure Env where
  srAvailable : Bool
  langOpt : Option String
  startThrows : Bool

/-- Observable emissions of the engine: calls into consumer callbacks and
    commands sent to the recognition service. -/
inductive Effect where
  | debug (msg : String)
  | banner (msg : String)
  | status (running : Bool)
  | timer (text : String)
  | transcript (text : String)
  | partialUpd (text : String)
  | autosave
  | startSession (label : String)
  | abortSession (label : String)
deriving DecidableEq

/- ── Utility wrappers (source lines 84-151) ─────────────────────────── -/

/-- Embeds a JS try { act() } catch (e) {} block around a callback call:
    a thrown exception is swallowed. -/
def guarded (r : Except Unit Unit) : Except Unit Unit :=
  match r with
  | .ok _ => .ok ()
  | .error _ => .ok ()

/-- dbg: guarded onDebug call (timestamp prefix omitted). -/
def dbg (cb : Callbacks) (msg : String) : Except Unit (List Effect) :=
  match guarded (cb.onDebug msg) with
  | .ok _ => .ok [.debug msg]
  | .error e => .error e

/-- setBanner: guarded onBanner call. -/
def setBanner (cb : Callbacks) (msg : String) : Except Unit (List Effect) :=
  match guarded (cb.onBanner msg) with
  | .ok _ => .ok [.banner msg]
  | .error e => .error e

/-- formatMMSS of the source. -/
def formatMMSS (ms : Nat) : String :=
  let s0 := ms / 1000
  let m := s0 / 60
  let s := s0 % 60
  pad2 m ++ "m " ++ pad2 s ++ "s"

/-- emitStatus: guarded onStatus call reporting isRecording. -/
def emitStatus (cb : Callbacks) (s : BridgeState) : Except Unit (List Effect) :=
  match guarded (cb.onStatus s.isRecording) with
  | .ok _ => .ok [.status s.isRecording]
  | .error e => .error e

/-- The timer text emitted by emitTimer. -/
def timerText (s : BridgeState) (now : Nat) : String :=
  if s.isRecording then formatMMSS (now - s.startTime) else "00m 00s"

/-- emitTimer: guarded onTimer call. -/
def emitTimer (cb : Callbacks) (s : BridgeState) (now : Nat) :
    Except Unit (List Effect) :=
  match guarded (cb.onTimer (timerText s now)) with
  | .ok _ => .ok [.timer (timerText s now)]
  | .error e => .error e

/-- The transcript text emitted by emitTranscript (empty string is falsy in
    JS, so it becomes the placeholder). -/
def renderTranscript (s : BridgeState) : String :=
  if s.transcribedAll = "" then "[A transcrição vai aparecer aqui]"
  else s.transcribedAll

/-- emitTranscript: guarded onTranscriptHtml call. -/
def emitTranscript (cb : Callbacks) (s : BridgeState) :
    Except Unit (List Effect) :=
  match guarded (cb.onTranscriptHtml (renderTranscript s)) with
  | .ok _ => .ok [.transcript (renderTranscript s)]
  | .error e => .error e

/-- emitPartial of the source: guarded onPartialText call. -/
def emitPartialText (cb : Callbacks) (s : BridgeState) :
    Except Unit (List Effect) :=
  match guarded (cb.onPartialText s.partialText) with
  | .ok _ => .ok [.partialUpd s.partialText]
  | .error e => .error e

/-- scheduleAutosave: guarded persist.scheduleAutosave call. -/
def scheduleAutosave (cb : Callbacks) : Except Unit (List Effect) :=
  match guarded (cb.scheduleAutosaveCb ()) with
  | .ok _ => .ok [.autosave]
  | .error e => .error e

/-- touchWatchdog: lastEventTime = Date.now(). -/
def touchWatchdog (s : BridgeState) (now : Nat) : BridgeState :=
  { s with lastEventTime := now }

/-- resetRetryState of the source. -/
def resetRetryState (s : BridgeState) : BridgeState :=
  { s with retryDelay := INITIAL_RETRY_DELAY_MS, consecutiveErrors := 0 }

/-- incrementRetryDelay of the source:
    retryDelay = min(retryDelay * 1.5, 3000). -/
def incrementRetryDelay (s : BridgeState) : BridgeState :=
  { s with retryDelay := min (s.retryDelay * RETRY_MULTIPLIER) MAX_RETRY_DELAY_MS }

/- ── Result buffering (source lines 157-193) ────────────────────────── -/

/-- processBufferedResults of the source: drain pendingFinals, join with a
    single space, trim; if non-empty, append as one line, keep the last 50
    lines (via split/slice(-50)/join), emit the transcript and schedule an
    autosave. -/
def processBufferedResults (cb : Callbacks) (s : BridgeState) :
    Except Unit (BridgeState × List Effect) := do
  if s.pendingFinals.length = 0 then return (s, [])
  let combined := jsTrim (jsJoin " " s.pendingFinals)
  let s1 : BridgeState := { s with pendingFinals := [] }
  if combined = "" then return (s1, [])
  let s2 : BridgeState :=
    { s1 with transcribedAll := s1.transcribedAll ++ combined ++ "<br>",
              nLines := s1.nLines + 1 }
  let fx1 ← dbg cb ("Nova linha transcrita: \"" ++ jsTake 50 combined ++
      (if 50 < combined.length then "..." else "") ++ "\"")
  let s3 : BridgeState :=
    if 50 < s2.nLines then
      { s2 with
          transcribedAll :=
            jsJoin "<br>" (jsSliceLast 50 (jsSplit s2.transcribedAll "<br>")),
          nLines := 50 }
    else s2
  let fx2 ← emitTranscript cb s3
  let fx3 ← scheduleAutosave cb
  return (s3, fx1 ++ fx2 ++ fx3)

/-- addFinalResult of the source: push the trimmed non-empty text and re-arm
    the debounce timer. -/
def addFinalResult (text : String) (s : BridgeState) : BridgeState :=
  if jsTrim text = "" then s
  else { s with pendingFinals := s.pendingFinals ++ [jsTrim text],
                resultDebounceTimer := true }

/-- The debounce timer callback: disarm, then processBufferedResults. A
    disarmed timer cannot fire, which is modelled as a no-op. -/
def fireDebounce (cb : Callbacks) (s : BridgeState) :
    Except Unit (BridgeState × List Effect) :=
  if s.resultDebounceTimer then
    processBufferedResults cb { s with resultDebounceTimer := false }
  else .ok (s, [])

/- ── Restart orchestration (source lines 374-481) ───────────────────── -/

/-- scheduleRestart of the source, up to the timer firing: gate on
    isRestarting and shouldBeRecording, then arm the restart timer with the
    current retryDelay, replacing any previously armed one. -/
def scheduleRestart (failedLabel : String) (s : BridgeState) : BridgeState :=
  if s.isRestarting || !s.shouldBeRecording then s
  else { s with isRestarting := true,
                restartTimeout := some (failedLabel, s.retryDelay) }

/-- createRecognitionInstance of the source, minus event-handler wiring:
    returns null when the constructor is unavailable; the language resolves
    from the consumer option with pt-BR as fallback, then maps to pt-BR
    exactly for "pt" and to en-US otherwise. -/
def resolveLang (langOpt : Option String) : String :=
  let lang := match langOpt with
    | some l => if l = "" then "pt-BR" else l
    | none => "pt-BR"
  if lang = "pt" then "pt-BR" else "en-US"

def createRecognitionInstance (env : Env) (label : String) :
    Option RecInstance :=
  if env.srAvailable then
    some { label := label, lang := resolveLang env.langOpt, isStarted := false }
  else none

/-- The abort command for the primary instance if it reports started. -/
def abortPrimaryFx (s : BridgeState) : List Effect :=
  match s.recognition with
  | some r => if r.isStarted then [.abortSession r.label] else []
  | none => []

/-- The abort commands for every instance that reports started. -/
def abortStartedFx (s : BridgeState) : List Effect :=
  abortPrimaryFx s ++
  (match s.recognitionBackup with
   | some r => if r.isStarted then [.abortSession r.label] else []
   | none => [])

/-- handleTooManyErrors of the source: log, banner, reset the counters and
    arm the anonymous cooldown timeout of ERROR_COOLDOWN_MS. -/
def handleTooManyErrors (cb : Callbacks) (s : BridgeState) :
    Except Unit (BridgeState × List Effect) := do
  let fx0 ← dbg cb ("Muitos erros consecutivos (" ++
      toString s.consecutiveErrors ++ "). Pausando por " ++
      toString ERROR_COOLDOWN_MS ++ "ms...")
  let fx1 ← setBanner cb "Muitos erros. Pausando brevemente e tentando novamente..."
  return ({ s with consecutiveErrors := 0,
                   retryDelay := INITIAL_RETRY_DELAY_MS,
                   cooldownTimer := true }, fx0 ++ fx1)

/-- performSingleRestart of the source: abort a started primary, create the
    primary if absent, then start it; a synchronous throw (including the
    TypeError of start() on a null instance) increments the error counter,
    grows backoff and either reschedules or trips the breaker. -/
def performSingleRestart (env : Env) (cb : Callbacks) (s : BridgeState) :
    Except Unit (BridgeState × List Effect) := do
  if ¬ s.shouldBeRecording then return (s, [])
  let fx0 ← dbg cb "Reiniciando reconhecimento único..."
  let fxAbort := abortPrimaryFx s
  let s1 : BridgeState :=
    if s.recognition = none then
      { s with recognition := createRecognitionInstance env "primary" }
    else s
  if s1.recognition ≠ none ∧ ¬ env.startThrows then
    return (s1, fx0 ++ fxAbort ++ [.startSession "primary"])
  else
    let fx1 ← dbg cb "Erro ao reiniciar"
    let s2 := incrementRetryDelay
      { s1 with consecutiveErrors := s1.consecutiveErrors + 1 }
    if s2.consecutiveErrors < MAX_CONSECUTIVE_ERRORS then
      return (scheduleRestart "primary" s2, fx0 ++ fxAbort ++ fx1)
    else
      let (s3, fx2) ← handleTooManyErrors cb s2
      return (s3, fx0 ++ fxAbort ++ fx1 ++ fx2)

/-- performDualRestart of the source: ping-pong to the other label, create
    the target instance on demand, and start it; a throw increments the
    error counter, grows backoff and either reschedules or trips the
    breaker; a missing instance trips the breaker directly. -/
def performDualRestart (env : Env) (cb : Callbacks) (failedLabel : String)
    (s : BridgeState) : Except Unit (BridgeState × List Effect) := do
  if ¬ s.shouldBeRecording then return (s, [])
  let useBackup := failedLabel = "primary"
  let targetLabel := if useBackup then "backup" else "primary"
  let fx0 ← dbg cb ("Dual restart: ativando " ++ targetLabel ++ "...")
  let s1 : BridgeState :=
    if useBackup ∧ s.recognitionBackup = none then
      { s with recognitionBackup := createRecognitionInstance env "backup" }
    else if ¬ useBackup ∧ s.recognition = none then
      { s with recognition := createRecognitionInstance env "primary" }
    else s
  let target := if useBackup then s1.recognitionBackup else s1.recognition
  match target with
  | none =>
    let fx1 ← dbg cb "Falha ao criar instância de reconhecimento"
    let (s2, fx2) ← handleTooManyErrors cb s1
    return (s2, fx0 ++ fx1 ++ fx2)
  | some _ =>
    if ¬ env.startThrows then
      let fx1 ← dbg cb (targetLabel ++ " ativado com sucesso")
      return ({ s1 with activeRecognition := targetLabel },
              fx0 ++ [.startSession targetLabel] ++ fx1)
    else
      let fx1 ← dbg cb ("Erro ao ativar " ++ targetLabel)
      let s2 := incrementRetryDelay
        { s1 with consecutiveErrors := s1.consecutiveErrors + 1 }
      if s2.consecutiveErrors < MAX_CONSECUTIVE_ERRORS then
        return (scheduleRestart targetLabel s2, fx0 ++ fx1)
      else
        let (s3, fx2) ← handleTooManyErrors cb s2
        return (s3, fx0 ++ fx1 ++ fx2)

/-- The restart timer callback of scheduleRestart: disarm, clear
    isRestarting, re-check the intent flag, then dispatch to the dual (the
    configured mode) or single restart. A disarmed timer cannot fire. -/
def fireRestart (env : Env) (cb : Callbacks) (s : BridgeState) :
    Except Unit (BridgeState × List Effect) :=
  match s.restartTimeout with
  | none => .ok (s, [])
  | some (lbl, _) =>
    let s1 : BridgeState := { s with restartTimeout := none, isRestarting := false }
    if ¬ s1.shouldBeRecording then .ok (s1, [])
    else if USE_DUAL_RECOGNITION then performDualRestart env cb lbl s1
    else performSingleRestart env cb s1

/-- The cooldown timeout callback of handleTooManyErrors: after the pause,
    if intent still says recording, log, banner and perform one single
    restart. A disarmed timer cannot fire. -/
def fireCooldown (env : Env) (cb : Callbacks) (s : BridgeState) :
    Except Unit (BridgeState × List Effect) := do
  if s.cooldownTimer then
    let s1 : BridgeState := { s with cooldownTimer := false }
    if s1.shouldBeRecording then
      let fx0 ← dbg cb "Retomando após cooldown..."
      let fx1 ← setBanner cb "Retomando reconhecimento..."
      let (s2, fx2) ← performSingleRestart env cb s1
      return (s2, fx0 ++ fx1 ++ fx2)
    else
      return (s1, [])
  else
    return (s, [])

/- ── Watchdog (source lines 487-522) ────────────────────────────────── -/

/-- One watchdog interval tick: only while intent says recording; if the
    elapsed time since the last event exceeds the timeout, abort every
    started instance and, unless a restart is pending, schedule a restart of
    the active label. An inactive interval cannot tick. -/
def fireWatchdogTick (cb : Callbacks) (now : Nat) (s : BridgeState) :
    Except Unit (BridgeState × List Effect) := do
  if ¬ s.watchdogActive then return (s, [])
  if ¬ s.shouldBeRecording then return (s, [])
  let elapsed := now - s.lastEventTime
  if WATCHDOG_TIMEOUT_MS < elapsed then
    let fx0 ← dbg cb ("Watchdog: sem eventos há " ++ toString elapsed ++
        "ms. Forçando reinício...")
    let fxAbort := abortStartedFx s
    let s1 := if ¬ s.isRestarting then scheduleRestart s.activeRecognition s
              else s
    return (s1, fx0 ++ fxAbort)
  else
    return (s, [])

/- ── Session event handlers (source lines 224-365) ──────────────────── -/

/-- Sets the _isStarted flag of the instance carrying the given label. -/
def setRecStarted (lbl : String) (b : Bool) (s : BridgeState) : BridgeState :=
  if lbl = "primary" then
    match s.recognition with
    | some r => { s with recognition := some { r with isStarted := b } }
    | none => s
  else
    match s.recognitionBackup with
    | some r => { s with recognitionBackup := some { r with isStarted := b } }
    | none => s

/-- rec.onstart: mark started, touch the watchdog, reset retry state, and
    raise isRecording if intent says recording. -/
def onstartHandler (cb : Callbacks) (lbl : String) (now : Nat)
    (s : BridgeState) : Except Unit (BridgeState × List Effect) := do
  let fx0 ← dbg cb ("[" ++ lbl ++ "] Reconhecimento iniciado")
  let s1 := resetRetryState (touchWatchdog (setRecStarted lbl true s) now)
  if s1.shouldBeRecording ∧ ¬ s1.isRecording then
    let s2 : BridgeState := { s1 with isRecording := true }
    let fx1 ← emitStatus cb s2
    return (s2, fx0 ++ fx1)
  else
    return (s1, fx0)

/-- rec.onend: mark ended, touch the watchdog; while intent says recording
    and no restart is pending, schedule a restart of this label; when intent
    is cleared, lower isRecording. -/
def onendHandler (cb : Callbacks) (lbl : String) (now : Nat)
    (s : BridgeState) : Except Unit (BridgeState × List Effect) := do
  let fx0 ← dbg cb ("[" ++ lbl ++ "] Reconhecimento finalizado")
  let s1 := touchWatchdog (setRecStarted lbl false s) now
  if s1.shouldBeRecording ∧ ¬ s1.isRestarting then
    let fx1 ← dbg cb ("[" ++ lbl ++ "] Reinício automático agendado")
    return (scheduleRestart lbl s1, fx0 ++ fx1)
  else if ¬ s1.shouldBeRecording then
    let s2 : BridgeState := { s1 with isRecording := false }
    let fx1 ← emitStatus cb s2
    return (s2, fx0 ++ fx1)
  else
    return (s1, fx0)

/-- rec.onerror: touch the watchdog, then the switch on event.error of the
    source; benign codes return immediately, fatal codes clear intent,
    retryable codes bump the counter (and backoff where the source does) and
    both threshold checks of the source are performed. -/
def onerrorHandler (cb : Callbacks) (lbl : String) (code : String) (now : Nat)
    (s : BridgeState) : Except Unit (BridgeState × List Effect) := do
  let fx0 ← dbg cb ("[" ++ lbl ++ "] Erro: " ++ code)
  let s1 : BridgeState := { s with lastEventTime := now }
  if code = "no-speech" then
    let fx1 ← dbg cb ("[" ++ lbl ++ "] Nenhuma fala detectada, continuando...")
    return (s1, fx0 ++ fx1)
  else if code = "aborted" then
    let fx1 ← dbg cb ("[" ++ lbl ++ "] Abortado")
    return (s1, fx0 ++ fx1)
  else if code = "audio-capture" then
    let s2 : BridgeState := { s1 with consecutiveErrors := s1.consecutiveErrors + 1 }
    let fx1 ← setBanner cb "Erro ao capturar áudio. Verifique as permissões do microfone."
    let (s3, fx2) ←
      if MAX_CONSECUTIVE_ERRORS ≤ s2.consecutiveErrors then
        handleTooManyErrors cb s2
      else pure (s2, [])
    let (s4, fx3) ←
      if MAX_CONSECUTIVE_ERRORS ≤ s3.consecutiveErrors then
        handleTooManyErrors cb s3
      else pure (s3, [])
    return (s4, fx0 ++ fx1 ++ fx2 ++ fx3)
  else if code = "not-allowed" then
    let fx1 ← setBanner cb "Permissão de microfone negada. Por favor, autorize o acesso."
    let s2 : BridgeState := { s1 with shouldBeRecording := false, isRecording := false }
    let fx2 ← emitStatus cb s2
    return (s2, fx0 ++ fx1 ++ fx2)
  else if code = "network" then
    let s2 : BridgeState := { s1 with consecutiveErrors := s1.consecutiveErrors + 1 }
    let fx1 ← dbg cb ("[" ++ lbl ++ "] Erro de rede - tentando reconectar...")
    let fx2 ← setBanner cb "Erro de rede. Tentando reconectar..."
    let s3 := incrementRetryDelay s2
    let (s4, fx3) ←
      if MAX_CONSECUTIVE_ERRORS ≤ s3.consecutiveErrors then
        handleTooManyErrors cb s3
      else pure (s3, [])
    return (s4, fx0 ++ fx1 ++ fx2 ++ fx3)
  else if code = "service-not-allowed" then
    let fx1 ← setBanner cb "Serviço de reconhecimento não disponível."
    let s2 : BridgeState := { s1 with shouldBeRecording := false, isRecording := false }
    let fx2 ← emitStatus cb s2
    return (s2, fx0 ++ fx1 ++ fx2)
  else
    let s2 : BridgeState := { s1 with consecutiveErrors := s1.consecutiveErrors + 1 }
    let fx1 ← dbg cb ("[" ++ lbl ++ "] Erro desconhecido: " ++ code)
    let s3 := incrementRetryDelay s2
    let (s4, fx3) ←
      if MAX_CONSECUTIVE_ERRORS ≤ s3.consecutiveErrors then
        handleTooManyErrors cb s3
      else pure (s3, [])
    return (s4, fx0 ++ fx1 ++ fx3)

/-- One iteration of the onresult loop over the event results: a final span
    is buffered (clearing the partial text), an interim span is concatenated
    onto the interim accumulator. -/
def resultStep (acc : BridgeState × String) (r : Bool × String) :
    BridgeState × String :=
  if r.1 then ({ addFinalResult r.2 acc.1 with partialText := "" }, acc.2)
  else (acc.1, acc.2 ++ r.2)

/-- rec.onresult: touch the watchdog, reset retry state, fold resultStep
    over the event results, then surface or clear the partial text. The
    results list carries the spans from event.resultIndex on, as pairs
    (isFinal, transcript). -/
def onresultHandler (cb : Callbacks) (now : Nat)
    (results : List (Bool × String)) (s : BridgeState) :
    Except Unit (BridgeState × List Effect) := do
  let s2 := resetRetryState (touchWatchdog s now)
  let acc := results.foldl resultStep (s2, "")
  let s3 := acc.1
  let interim := acc.2
  if interim ≠ "" then
    let s4 : BridgeState := { s3 with partialText := interim }
    let fx1 ← emitPartialText cb s4
    return (s4, fx1)
  else if s3.partialText ≠ "" then
    let s4 : BridgeState := { s3 with partialText := "" }
    let fx1 ← emitPartialText cb s4
    return (s4, fx1)
  else
    return (s3, [])

/- ── Public API (source lines 635-723) ──────────────────────────────── -/

/-- stop of the source: clear intent, cancel the restart timer and the
    restarting flag, stop the watchdog, abort started instances, cancel the
    debounce timer and flush, stop the UI timer, clear the partial text and
    emit the final signals. -/
def stop (cb : Callbacks) (now : Nat) (s : BridgeState) :
    Except Unit (BridgeState × List Effect) := do
  if ¬ s.shouldBeRecording then return (s, [])
  let fx0 ← dbg cb "Parando gravação..."
  let s1 : BridgeState :=
    { s with shouldBeRecording := false, isRecording := false,
             restartTimeout := none, isRestarting := false,
             watchdogActive := false }
  let fxAbort := abortStartedFx s1
  let s2 : BridgeState := { s1 with resultDebounceTimer := false }
  let (s3, fx1) ← processBufferedResults cb s2
  let s4 : BridgeState := { s3 with timerActive := false, partialText := "" }
  let fx2 ← emitPartialText cb s4
  let fx3 ← emitStatus cb s4
  let fx4 ← emitTimer cb s4 now
  let fx5 ← scheduleAutosave cb
  let fx6 ← setBanner cb "Gravação parada."
  return (s4, fx0 ++ fxAbort ++ fx1 ++ fx2 ++ fx3 ++ fx4 ++ fx5 ++ fx6)

/-- setNLines of the source: store Number(v) when it is finite and >= 0. -/
def setNLines (v : JSNum) (s : BridgeState) : BridgeState :=
  if v.isFiniteJS && v.geZeroJS then { s with nLines := v.valJS } else s

/-- getNLines of the source. -/
def getNLines (s : BridgeState) : ℚ :=
  s.nLines

/-- setLanguage of the source: map "pt" to pt-BR and anything else to en-US,
    stamp both existing instances, and log. -/
def setLanguage (cb : Callbacks) (lang : String) (s : BridgeState) :
    Except Unit (BridgeState × List Effect) := do
  let newLang := if lang = "pt" then "pt-BR" else "en-US"
  let s1 : BridgeState := match s.recognition with
    | some r => { s with recognition := some { r with lang := newLang } }
    | none => s
  let s2 : BridgeState := match s1.recognitionBackup with
    | some r => { s1 with recognitionBackup := some { r with lang := newLang } }
    | none => s1
  let fx0 ← dbg cb ("Idioma alterado para: " ++ newLang)
  return (s2, fx0)

/- ── Sample states for concrete runs ────────────────────────────────── -/

/-- The initial module state of createSpeechBridge. -/
def baseState : BridgeState where
  recognition := none
  recognitionBackup := none
  activeRecognition := "primary"
  transcribedAll := ""
  nLines := 0
  partialText := ""
  pendingFinals := []
  isRecording := false
  shouldBeRecording := false
  startTime := 0
  lastEventTime := 0
  retryDelay := INITIAL_RETRY_DELAY_MS
  consecutiveErrors := 0
  isRestarting := false
  restartTimeout := none
  resultDebounceTimer := false
  watchdogActive := false
  timerActive := false
  cooldownTimer := false

/-- A transcript of the given lines in the source representation: every line
    followed by one br tag. -/
def brJoin (ls : List String) : String :=
  jsJoin "" (ls.map (fun l => l ++ "<br>"))

/- ── Concrete states, environments and emission lists used below ───── -/

/-- The spec scenario state for C1: three fragments buffered. -/
def w1State : BridgeState :=
  { baseState with pendingFinals := ["ola", "mundo", "teste"] }

/-- The state after the C1 scenario flush. -/
def w1Result : BridgeState :=
  { baseState with transcribedAll := "ola mundo teste<br>", nLines := 1 }

/-- The emissions of the C1 scenario flush. -/
def w1Fx : List Effect :=
  [.debug "Nova linha transcrita: \"ola mundo teste\"",
   .transcript "ola mundo teste<br>", .autosave]

/-- The transcript produced by 50 genuine flushes of the line "x". -/
def c2Start : String :=
  brJoin (List.replicate 50 "x")

/-- A state reached after 50 genuine flushes: 50 retained lines, a consistent
    count, and one more fragment pending. -/
def c2State : BridgeState :=
  { baseState with transcribedAll := c2Start, nLines := 50,
                   pendingFinals := ["y"] }

/-- The transcript text the cap-enforcing flush stores on c2State: the
    split/slice/join pipeline of the source applied to the 51-line text. -/
def capString : String :=
  jsJoin "<br>" (jsSliceLast 50 (jsSplit (c2Start ++ "y" ++ "<br>") "<br>"))

/-- The state the cap-enforcing flush actually produces on c2State. -/
def c2Result : BridgeState :=
  { baseState with transcribedAll := capString, nLines := 50 }

/-- The emissions of the cap-enforcing flush on c2State. -/
def c2Fx : List Effect :=
  [.debug "Nova linha transcrita: \"y\"", .transcript capString, .autosave]

/-- A running dual-session state: both instances live, intent recording,
    backoff at its floor. -/
def c3State : BridgeState :=
  { baseState with
    shouldBeRecording := true
    isRecording := true
    recognition := some { label := "primary", lang := "pt-BR", isStarted := true }
    recognitionBackup := some { label := "backup", lang := "pt-BR", isStarted := true }
    watchdogActive := true }

/-- An environment where the service is available and start() succeeds. -/
def env0 : Env :=
  { srAvailable := true, langOpt := none, startThrows := false }

/-- c3State after the primary emits ended: a restart is armed at 100 ms. -/
def c3s1 : BridgeState :=
  { c3State with
    recognition := some { label := "primary", lang := "pt-BR", isStarted := false }
    lastEventTime := 1000
    isRestarting := true
    restartTimeout := some ("primary", INITIAL_RETRY_DELAY_MS) }

def c3Fx1 : List Effect :=
  [.debug "[primary] Reconhecimento finalizado",
   .debug "[primary] Reinício automático agendado"]

/-- c3s1 after the armed restart fires and the backup starts successfully. -/
def c3s2 : BridgeState :=
  { c3s1 with
    restartTimeout := none
    isRestarting := false
    activeRecognition := "backup" }

def c3Fx2 : List Effect :=
  [.debug "Dual restart: ativando backup...", .startSession "backup",
   .debug "backup ativado com sucesso"]

/-- c3s2 after the backup emits ended: the next restart is armed again at
    100 ms, not at 150 ms. -/
def c3s3 : BridgeState :=
  { c3s2 with
    recognitionBackup := some { label := "backup", lang := "pt-BR", isStarted := false }
    lastEventTime := 2000
    isRestarting := true
    restartTimeout := some ("backup", INITIAL_RETRY_DELAY_MS) }

def c3Fx3 : List Effect :=
  [.debug "[backup] Reconhecimento finalizado",
   .debug "[backup] Reinício automático agendado"]

/-- The C3 witness scenario: intent recording, no restart pending. -/
def w3State : BridgeState :=
  { baseState with shouldBeRecording := true }

/-- w3State after an ended event from the primary. -/
def w3Result : BridgeState :=
  { baseState with
    shouldBeRecording := true
    lastEventTime := 7
    isRestarting := true
    restartTimeout := some ("primary", INITIAL_RETRY_DELAY_MS) }

def w3Fx : List Effect :=
  [.debug "[primary] Reconhecimento finalizado",
   .debug "[primary] Reinício automático agendado"]

/-- A fully armed recording state for the C4 witness: restart pending,
    debounce pending, watchdog running, one fragment buffered. -/
def w4State : BridgeState :=
  { baseState with
    shouldBeRecording := true
    isRecording := true
    watchdogActive := true
    isRestarting := true
    restartTimeout := some ("primary", 100)
    resultDebounceTimer := true
    pendingFinals := ["oi"]
    timerActive := true }

/-- The state stop() leaves behind on w4State. -/
def w4Result : BridgeState :=
  { baseState with transcribedAll := "oi<br>", nLines := 1 }

/-- The emissions of stop() on w4State. -/
def w4Fx : List Effect :=
  [.debug "Parando gravação...", .debug "Nova linha transcrita: \"oi\"",
   .transcript "oi<br>", .autosave, .partialUpd "", .status false,
   .timer "00m 00s", .autosave, .banner "Gravação parada."]

/-- The environment used by the C4 witness. -/
def wEnv : Env :=
  { srAvailable := true, langOpt := none, startThrows := false }

/-- A stale armed restart timer surviving into a stopped state. -/
def w4tState : BridgeState :=
  { baseState with restartTimeout := some ("backup", 200), isRestarting := true }

/-- Recognizes a start command among the logged effects. -/
def isStartCmd : Effect → Bool
  | .startSession _ => true
  | _ => false

/-- How many start commands a run emitted. -/
def startCount (fx : List Effect) : Nat :=
  fx.countP isStartCmd

/-- A state one retryable error away from the breaker, with a restart
    already armed by an earlier ended event. -/
def c5State : BridgeState :=
  { baseState with
    shouldBeRecording := true
    isRecording := true
    consecutiveErrors := 9
    isRestarting := true
    restartTimeout := some ("primary", 100)
    recognition := some { label := "primary", lang := "pt-BR", isStarted := false }
    recognitionBackup := some { label := "backup", lang := "pt-BR", isStarted := true }
    watchdogActive := true }

/-- c5State after the tenth retryable error trips the breaker: counters
    reset, cooldown armed, but the pending restart timer still armed. -/
def c5s1 : BridgeState :=
  { c5State with
    lastEventTime := 50
    consecutiveErrors := 0
    retryDelay := INITIAL_RETRY_DELAY_MS
    cooldownTimer := true }

def c5Fx1 : List Effect :=
  [.debug "[primary] Erro: network",
   .debug "[primary] Erro de rede - tentando reconectar...",
   .banner "Erro de rede. Tentando reconectar...",
   .debug ("Muitos erros consecutivos (" ++ toString (10 : Nat) ++
     "). Pausando por " ++ toString ERROR_COOLDOWN_MS ++ "ms..."),
   .banner "Muitos erros. Pausando brevemente e tentando novamente..."]

/-- c5s1 after the still-armed restart timer fires during the cooldown
    pause: a start command is sent while cooldown is still pending. -/
def c5s2 : BridgeState :=
  { c5s1 with
    restartTimeout := none
    isRestarting := false
    activeRecognition := "backup" }

def c5Fx2 : List Effect :=
  [.debug "Dual restart: ativando backup...", .startSession "backup",
   .debug "backup ativado com sucesso"]

/-- The breaker input for the C5 witness: counter at the threshold. -/
def w5State : BridgeState :=
  { baseState with consecutiveErrors := 10, retryDelay := 150 }

/-- What the breaker leaves behind: counters reset, cooldown armed. -/
def w5Result : BridgeState :=
  { baseState with cooldownTimer := true }

def w5Fx1 : List Effect :=
  [.debug ("Muitos erros consecutivos (" ++ toString (10 : Nat) ++
     "). Pausando por " ++ toString ERROR_COOLDOWN_MS ++ "ms..."),
   .banner "Muitos erros. Pausando brevemente e tentando novamente..."]

/-- A cooldown firing with intent still recording. -/
def w5t3 : BridgeState :=
  { baseState with cooldownTimer := true, shouldBeRecording := true }

/-- The state after that cooldown firing: one fresh primary started. -/
def w5s3 : BridgeState :=
  { baseState with
    shouldBeRecording := true
    recognition := some { label := "primary", lang := "en-US", isStarted := false } }

def w5Fx3 : List Effect :=
  [.debug "Retomando após cooldown...", .banner "Retomando reconhecimento...",
   .debug "Reiniciando reconhecimento único...", .startSession "primary"]

/-- A witness state with stale retry data. -/
def w7State : BridgeState :=
  { baseState with retryDelay := 2000, consecutiveErrors := 7 }

/-- w7State after a successful start event. -/
def w7s1 : BridgeState :=
  resetRetryState (touchWatchdog (setRecStarted "primary" true w7State) 11)

/-- w7State after a result event delivering one final span. -/
def w7s2 : BridgeState :=
  (resultStep (resetRetryState (touchWatchdog w7State 12), "") (true, "oi")).1

/-- The two-session state for the C8 witness. -/
def c8State : BridgeState :=
  { baseState with
    recognition := some { label := "primary", lang := "pt-BR", isStarted := true }
    recognitionBackup := some { label := "backup", lang := "pt-BR", isStarted := false } }

/-- The spec-side guard of C10: Number(v) is finite and at least zero. -/
def jsFiniteNonneg (v : JSNum) : Bool :=
  match v with
  | .num q => decide (0 ≤ q)
  | _ => false

/-- The spec-side stored value of C10. -/
def jsNumValue (v : JSNum) : ℚ :=
  match v with
  | .num q => q
  | _ => 0

/- ── Basic lemmas about the callback wrappers ───────────────────────── -/

theorem guarded_eq (r : Except Unit Unit) : guarded r = .ok () := by
  cases r <;> rfl

theorem dbg_eq (cb : Callbacks) (m : String) : dbg cb m = .ok [.debug m] := by
  simp [dbg, guarded_eq]

theorem setBanner_eq (cb : Callbacks) (m : String) :
    setBanner cb m = .ok [.banner m] := by
  simp [setBanner, guarded_eq]

theorem emitStatus_eq (cb : Callbacks) (s : BridgeState) :
    emitStatus cb s = .ok [.status s.isRecording] := by
  simp [emitStatus, guarded_eq]

theorem emitTimer_eq (cb : Callbacks) (s : BridgeState) (now : Nat) :
    emitTimer cb s now = .ok [.timer (timerText s now)] := by
  simp [emitTimer, guarded_eq]

theorem emitTranscript_eq (cb : Callbacks) (s : BridgeState) :
    emitTranscript cb s = .ok [.transcript (renderTranscript s)] := by
  simp [emitTranscript, guarded_eq]

theorem emitPartialText_eq (cb : Callbacks) (s : BridgeState) :
    emitPartialText cb s = .ok [.partialUpd s.partialText] := by
  simp [emitPartialText, guarded_eq]

theorem scheduleAutosave_eq (cb : Callbacks) :
    scheduleAutosave cb = .ok [.autosave] := by
  simp [scheduleAutosave, guarded_eq]

theorem ok_bind {α β : Type} (a : α) (f : α → Except Unit β) :
    (Except.ok a >>= f : Except Unit β) = f a := rfl

/-- C1: for every sequence of non-empty final-text fragments buffered between
    two flushes (below the line cap), a single flush drains the entire
    pending queue; when the joined, space-separated, trimmed text is
    non-empty it is appended as exactly one new transcript line and the
    persistence-schedule side effect fires, and when it is empty nothing is
    appended. -/
theorem C1_flush_one_line (cb : Callbacks) (s s' : BridgeState)
    (fx : List Effect)
    (hq : s.pendingFinals ≠ []) (hcap : s.nLines + 1 ≤ 50)
    (hr : processBufferedResults cb s = .ok (s', fx)) :
    s'.pendingFinals = [] ∧
    (jsTrim (jsJoin " " s.pendingFinals) ≠ "" →
      s'.transcribedAll =
          s.transcribedAll ++ jsTrim (jsJoin " " s.pendingFinals) ++ "<br>" ∧
      s'.nLines = s.nLines + 1 ∧ Effect.autosave ∈ fx) ∧
    (jsTrim (jsJoin " " s.pendingFinals) = "" →
      s'.transcribedAll = s.transcribedAll ∧ s'.nLines = s.nLines ∧ fx = []) := by
  have h0 : ¬ (s.pendingFinals.length = 0) := by
    simpa [List.length_eq_zero] using hq
  by_cases hc : jsTrim (jsJoin " " s.pendingFinals) = ""
  · simp only [processBufferedResults, pure, Except.pure] at hr
    simp only [if_neg h0, if_pos hc] at hr
    cases hr
    exact ⟨rfl, fun h => absurd hc h, fun _ => ⟨rfl, rfl, rfl⟩⟩
  · have hnocap : ¬ (50 < s.nLines + 1) := not_lt.mpr hcap
    simp only [processBufferedResults, ok_bind, dbg_eq, emitTranscript_eq,
      scheduleAutosave_eq, pure, Except.pure] at hr
    simp only [if_neg h0, if_neg hc, if_neg hnocap] at hr
    cases hr
    refine ⟨rfl, fun _ => ⟨rfl, rfl, by simp⟩, fun h => absurd h hc⟩

theorem C1_flush_one_line_witness :
    w1Result.pendingFinals = [] ∧
    (jsTrim (jsJoin " " w1State.pendingFinals) ≠ "" →
      w1Result.transcribedAll =
          w1State.transcribedAll ++ jsTrim (jsJoin " " w1State.pendingFinals) ++ "<br>" ∧
      w1Result.nLines = w1State.nLines + 1 ∧ Effect.autosave ∈ w1Fx) ∧
    (jsTrim (jsJoin " " w1State.pendingFinals) = "" →
      w1Result.transcribedAll = w1State.transcribedAll ∧
      w1Result.nLines = w1State.nLines ∧ w1Fx = []) := by
  have e1 : jsTrim (jsJoin " " ["ola", "mundo", "teste"]) = "ola mundo teste" := by
    decide
  have e3 : ¬ ((50 : ℚ) < 0 + 1) := by norm_num
  have e5 : jsTake 50 "ola mundo teste" = "ola mundo teste" := by decide
  have e6 : ¬ (50 < ("ola mundo teste" : String).length) := by decide
  refine C1_flush_one_line pureCallbacks w1State w1Result w1Fx (by decide)
    (by norm_num [w1State, baseState]) ?_
  simp [processBufferedResults, w1State, w1Result, w1Fx, baseState, e1, e3,
    e5, e6, ok_bind, dbg_eq, emitTranscript_eq, scheduleAutosave_eq, pure,
    Except.pure, renderTranscript, INITIAL_RETRY_DELAY_MS]

set_option maxRecDepth 40000 in
/-- C2: at the failing input (a 51st line flushed past the cap of 50) the
    flush keeps the newest line and drops the oldest ones, but it records
    nLines = 50 while the retained text parses back to only 49 lines: the
    split on the br separator has 50 components, the last being the empty
    remainder after the final br and component 48 being the just-appended
    line. The recorded line count is therefore inconsistent with the
    retained transcript text, against the keep-the-last-50-lines intent
    documented in the source comment. -/
theorem C2_cap_miscount :
    processBufferedResults pureCallbacks c2State = .ok (c2Result, c2Fx) ∧
    c2Result.nLines = 50 ∧
    (jsSplit c2Result.transcribedAll "<br>").length = 50 ∧
    (jsSplit c2Result.transcribedAll "<br>").getLast? = some "" ∧
    (jsSplit c2Result.transcribedAll "<br>").getD 48 "" = "y" := by
  have e1 : jsTrim (jsJoin " " ["y"]) = "y" := by decide
  have hcap : ((50 : ℚ) < 50 + 1) := by norm_num
  have hfold : jsJoin "<br>" (jsSliceLast 50 (jsSplit (c2Start ++ "y" ++ "<br>") "<br>"))
      = capString := rfl
  have hne : ¬ (capString = "") := by decide
  have e5 : jsTake 50 "y" = "y" := by decide
  have e6 : ¬ (50 < ("y" : String).length) := by decide
  refine ⟨?_, rfl, by decide, by decide, by decide⟩
  simp [processBufferedResults, c2State, c2Result, c2Fx, baseState, e1, hcap,
    hfold, hne, e5, e6, ok_bind, dbg_eq, emitTranscript_eq, scheduleAutosave_eq,
    pure, Except.pure, renderTranscript, INITIAL_RETRY_DELAY_MS]

/- ── Projection lemmas for setRecStarted ────────────────────────────── -/

@[simp] theorem setRecStarted_shouldBeRecording (lbl : String) (b : Bool)
    (s : BridgeState) :
    (setRecStarted lbl b s).shouldBeRecording = s.shouldBeRecording := by
  unfold setRecStarted; split <;> split <;> rfl

@[simp] theorem setRecStarted_isRestarting (lbl : String) (b : Bool)
    (s : BridgeState) :
    (setRecStarted lbl b s).isRestarting = s.isRestarting := by
  unfold setRecStarted; split <;> split <;> rfl

@[simp] theorem setRecStarted_retryDelay (lbl : String) (b : Bool)
    (s : BridgeState) :
    (setRecStarted lbl b s).retryDelay = s.retryDelay := by
  unfold setRecStarted; split <;> split <;> rfl

@[simp] theorem setRecStarted_consecutiveErrors (lbl : String) (b : Bool)
    (s : BridgeState) :
    (setRecStarted lbl b s).consecutiveErrors = s.consecutiveErrors := by
  unfold setRecStarted; split <;> split <;> rfl

@[simp] theorem setRecStarted_restartTimeout (lbl : String) (b : Bool)
    (s : BridgeState) :
    (setRecStarted lbl b s).restartTimeout = s.restartTimeout := by
  unfold setRecStarted; split <;> split <;> rfl

@[simp] theorem setRecStarted_isRecording (lbl : String) (b : Bool)
    (s : BridgeState) :
    (setRecStarted lbl b s).isRecording = s.isRecording := by
  unfold setRecStarted; split <;> split <;> rfl

/- ── C3: restart scheduling after an ended event, and the backoff law ── -/

/-- C3 counterexample: two successive ended events, separated by one
    successful restart and no error of any kind, both schedule their restart
    with delay 100 ms. The delays used by successive ended-triggered restart
    attempts are therefore 100, 100, ..., not the increasing sequence
    100, 150, 225, ... claimed: an ended event alone never advances the
    backoff delay. -/
theorem C3_counterexample :
    onendHandler pureCallbacks "primary" 1000 c3State = .ok (c3s1, c3Fx1) ∧
    c3s1.restartTimeout = some ("primary", 100) ∧
    fireRestart env0 pureCallbacks c3s1 = .ok (c3s2, c3Fx2) ∧
    onendHandler pureCallbacks "backup" 2000 c3s2 = .ok (c3s3, c3Fx3) ∧
    c3s3.restartTimeout = some ("backup", 100) := by
  refine ⟨?_, rfl, ?_, ?_, rfl⟩
  · simp [onendHandler, c3State, c3s1, c3Fx1, baseState, setRecStarted,
      touchWatchdog, scheduleRestart, dbg_eq, ok_bind, pure, Except.pure]
  · simp [fireRestart, performDualRestart, USE_DUAL_RECOGNITION, env0,
      c3s1, c3s2, c3Fx2, c3State, baseState, dbg_eq, ok_bind, pure,
      Except.pure]
  · simp [onendHandler, c3s2, c3s1, c3s3, c3Fx3, c3State, baseState,
      setRecStarted, touchWatchdog, scheduleRestart, dbg_eq, ok_bind, pure,
      Except.pure]

/-- C3 amended: an ended event received while intent is recording and no
    restart is pending schedules a restart with the current backoff delay
    (which it does not advance); the backoff delay itself, grown by
    incrementRetryDelay on retryable errors and failed start attempts,
    follows the sequence 100 * 1.5 ^ k capped at 3000 ms and never exceeds
    the 3000 ms ceiling. -/
theorem C3_backoff_law :
    (∀ cb lbl now s s' fx, s.shouldBeRecording = true → s.isRestarting = false →
      onendHandler cb lbl now s = .ok (s', fx) →
      s'.restartTimeout = some (lbl, s.retryDelay) ∧ s'.isRestarting = true ∧
      s'.retryDelay = s.retryDelay) ∧
    (∀ (k : Nat) (s : BridgeState), s.retryDelay = INITIAL_RETRY_DELAY_MS →
      (incrementRetryDelay^[k] s).retryDelay = min (100 * (3 / 2) ^ k) 3000 ∧
      (incrementRetryDelay^[k] s).retryDelay ≤ 3000) := by
  constructor
  · intro cb lbl now s s' fx h1 h2 hr
    have hb : (touchWatchdog (setRecStarted lbl false s) now).shouldBeRecording = true := by
      simp [touchWatchdog, h1]
    have hi : (touchWatchdog (setRecStarted lbl false s) now).isRestarting = false := by
      simp [touchWatchdog, h2]
    simp only [onendHandler, ok_bind, dbg_eq, pure, Except.pure] at hr
    rw [if_pos ⟨hb, by simp [hi]⟩] at hr
    simp only [Except.ok.injEq, Prod.mk.injEq] at hr
    obtain ⟨hs', _⟩ := hr
    subst hs'
    refine ⟨?_, ?_, ?_⟩ <;>
      simp [scheduleRestart, hb, hi, touchWatchdog, h1, h2]
  · intro k s hs
    induction k with
    | zero =>
      constructor
      · simp [Function.iterate_zero, hs, INITIAL_RETRY_DELAY_MS]
        norm_num
      · simp [Function.iterate_zero, hs, INITIAL_RETRY_DELAY_MS]
        norm_num
    | succ n ih =>
      obtain ⟨ih1, _⟩ := ih
      have hstep : (incrementRetryDelay^[n + 1] s).retryDelay =
          min ((incrementRetryDelay^[n] s).retryDelay * (3 / 2)) 3000 := by
        rw [Function.iterate_succ_apply']
        simp [incrementRetryDelay, RETRY_MULTIPLIER, MAX_RETRY_DELAY_MS]
      have h1 : (incrementRetryDelay^[n + 1] s).retryDelay =
          min (100 * (3 / 2) ^ (n + 1)) 3000 := by
        rw [hstep, ih1]
        rcases le_total (100 * (3 / 2 : ℚ) ^ n) 3000 with h | h
        · rw [min_eq_left h, pow_succ, ← mul_assoc]
        · rw [min_eq_right h]
          rw [min_eq_right (by norm_num : (3000 : ℚ) ≤ 3000 * (3 / 2))]
          have hup : (3000 : ℚ) ≤ 100 * (3 / 2) ^ (n + 1) := by
            refine le_trans h ?_
            rw [pow_succ]
            nlinarith [pow_nonneg (by norm_num : (0 : ℚ) ≤ 3 / 2) n]
          rw [min_eq_right hup]
      refine ⟨h1, ?_⟩
      rw [h1]
      exact min_le_right _ _

theorem C3_backoff_law_witness :
    (w3Result.restartTimeout = some ("primary", w3State.retryDelay) ∧
     w3Result.isRestarting = true ∧ w3Result.retryDelay = w3State.retryDelay) ∧
    (incrementRetryDelay^[9] w3State).retryDelay = 3000 := by
  obtain ⟨ha, hb⟩ := C3_backoff_law
  constructor
  · refine ha pureCallbacks "primary" 7 w3State w3Result w3Fx rfl rfl ?_
    simp [onendHandler, w3State, w3Result, w3Fx, baseState, setRecStarted,
      touchWatchdog, scheduleRestart, dbg_eq, ok_bind, pure, Except.pure]
  · have h2 := (hb 9 w3State rfl).1
    rw [h2]
    norm_num

/- ── Totality and frame lemmas for the flush ────────────────────────── -/

/-- processBufferedResults never lets an exception escape. -/
theorem processBufferedResults_exists (cb : Callbacks) (s : BridgeState) :
    ∃ p, processBufferedResults cb s = .ok p := by
  by_cases h0 : s.pendingFinals.length = 0
  · refine ⟨(s, []), ?_⟩
    simp only [processBufferedResults, pure, Except.pure]
    rw [if_pos h0]
  · by_cases hc : jsTrim (jsJoin " " s.pendingFinals) = ""
    · refine ⟨({ s with pendingFinals := [] }, []), ?_⟩
      simp only [processBufferedResults, ok_bind, pure, Except.pure]
      rw [if_neg h0, if_pos hc]
    · by_cases hcap : (50 : ℚ) < s.nLines + 1
      · exact ⟨_, by
          simp only [processBufferedResults, ok_bind, dbg_eq,
            emitTranscript_eq, scheduleAutosave_eq, pure, Except.pure]
          rw [if_neg h0, if_neg hc, if_pos hcap]⟩
      · exact ⟨_, by
          simp only [processBufferedResults, ok_bind, dbg_eq,
            emitTranscript_eq, scheduleAutosave_eq, pure, Except.pure]
          rw [if_neg h0, if_neg hc, if_neg hcap]⟩

/-- The flush mutates only the transcript accumulator fields: every session,
    timer, retry and intent field is untouched. -/
theorem processBufferedResults_frame (cb : Callbacks) (s s' : BridgeState)
    (fx : List Effect) (hr : processBufferedResults cb s = .ok (s', fx)) :
    s'.restartTimeout = s.restartTimeout ∧ s'.isRestarting = s.isRestarting ∧
    s'.watchdogActive = s.watchdogActive ∧
    s'.resultDebounceTimer = s.resultDebounceTimer ∧
    s'.shouldBeRecording = s.shouldBeRecording ∧
    s'.isRecording = s.isRecording ∧ s'.recognition = s.recognition ∧
    s'.recognitionBackup = s.recognitionBackup ∧
    s'.timerActive = s.timerActive ∧ s'.cooldownTimer = s.cooldownTimer ∧
    s'.partialText = s.partialText ∧ s'.retryDelay = s.retryDelay ∧
    s'.consecutiveErrors = s.consecutiveErrors := by
  by_cases h0 : s.pendingFinals.length = 0
  · simp only [processBufferedResults, if_pos h0, pure, Except.pure,
      Except.ok.injEq, Prod.mk.injEq] at hr
    obtain ⟨h1, _⟩ := hr
    subst h1
    exact ⟨rfl, rfl, rfl, rfl, rfl, rfl, rfl, rfl, rfl, rfl, rfl, rfl, rfl⟩
  · by_cases hc : jsTrim (jsJoin " " s.pendingFinals) = ""
    · simp only [processBufferedResults, ok_bind, pure, Except.pure,
        if_neg h0, if_pos hc, Except.ok.injEq, Prod.mk.injEq] at hr
      obtain ⟨h1, _⟩ := hr
      subst h1
      exact ⟨rfl, rfl, rfl, rfl, rfl, rfl, rfl, rfl, rfl, rfl, rfl, rfl, rfl⟩
    · by_cases hcap : (50 : ℚ) < s.nLines + 1
      · simp only [processBufferedResults, ok_bind, dbg_eq, emitTranscript_eq,
          scheduleAutosave_eq, pure, Except.pure] at hr
        rw [if_neg h0, if_neg hc, if_pos hcap] at hr
        simp only [pure, Except.pure, Except.ok.injEq, Prod.mk.injEq] at hr
        obtain ⟨h1, _⟩ := hr
        subst h1
        exact ⟨rfl, rfl, rfl, rfl, rfl, rfl, rfl, rfl, rfl, rfl, rfl, rfl, rfl⟩
      · simp only [processBufferedResults, ok_bind, dbg_eq, emitTranscript_eq,
          scheduleAutosave_eq, pure, Except.pure] at hr
        rw [if_neg h0, if_neg hc, if_neg hcap] at hr
        simp only [pure, Except.pure, Except.ok.injEq, Prod.mk.injEq] at hr
        obtain ⟨h1, _⟩ := hr
        subst h1
        exact ⟨rfl, rfl, rfl, rfl, rfl, rfl, rfl, rfl, rfl, rfl, rfl, rfl, rfl⟩

/-- C4: after stop() returns, intent is cleared and the restart timer, the
    watchdog interval and the debounce timer are all cancelled, so none of
    those callbacks can fire again, let alone mutate recording state or
    start a session; and independently, the restart callback re-checks the
    intent flag when it fires, so even a still-armed restart timer firing
    after intent was cleared only disarms itself, changes no recording
    state and sends no start command. -/
theorem C4_stop_quiesces :
    (∀ cb now s s' fx, s.shouldBeRecording = true →
      stop cb now s = .ok (s', fx) →
      s'.shouldBeRecording = false ∧ s'.isRecording = false ∧
      s'.restartTimeout = none ∧ s'.resultDebounceTimer = false ∧
      s'.watchdogActive = false ∧
      (∀ env, fireRestart env cb s' = .ok (s', [])) ∧
      (∀ now2, fireWatchdogTick cb now2 s' = .ok (s', [])) ∧
      fireDebounce cb s' = .ok (s', [])) ∧
    (∀ env cb t lbl d, t.shouldBeRecording = false →
      t.restartTimeout = some (lbl, d) →
      fireRestart env cb t =
        .ok ({ t with restartTimeout := none, isRestarting := false }, [])) := by
  constructor
  · intro cb now s s' fx h1 hr
    simp only [stop, ok_bind, dbg_eq, emitPartialText_eq, emitStatus_eq,
      emitTimer_eq, scheduleAutosave_eq, setBanner_eq, pure, Except.pure] at hr
    rw [if_neg (by simp [h1])] at hr
    obtain ⟨⟨t, fxp⟩, hpb⟩ := processBufferedResults_exists cb
      { s with shouldBeRecording := false, isRecording := false,
               restartTimeout := none, isRestarting := false,
               watchdogActive := false, resultDebounceTimer := false }
    have hframe := processBufferedResults_frame _ _ _ _ hpb
    rw [hpb, ok_bind] at hr
    simp only [Except.ok.injEq, Prod.mk.injEq] at hr
    obtain ⟨h2, _⟩ := hr
    subst h2
    obtain ⟨f1, f2, f3, f4, f5, f6, f7, f8, f9, f10, f11, f12, f13⟩ := hframe
    refine ⟨by simp [f5], by simp [f6], by simp [f1], by simp [f4],
      by simp [f3], ?_, ?_, ?_⟩
    · intro env
      simp [fireRestart, f1]
    · intro now2
      simp [fireWatchdogTick, f3, pure, Except.pure]
    · simp [fireDebounce, f4, pure, Except.pure]
  · intro env cb t lbl d h1 h2
    simp [fireRestart, h2, h1, pure, Except.pure]

theorem C4_stop_quiesces_witness :
    (w4Result.shouldBeRecording = false ∧ w4Result.isRecording = false ∧
     w4Result.restartTimeout = none ∧ w4Result.resultDebounceTimer = false ∧
     w4Result.watchdogActive = false ∧
     fireRestart wEnv pureCallbacks w4Result = .ok (w4Result, []) ∧
     fireWatchdogTick pureCallbacks 9000 w4Result = .ok (w4Result, []) ∧
     fireDebounce pureCallbacks w4Result = .ok (w4Result, [])) ∧
    fireRestart wEnv pureCallbacks w4tState =
      .ok ({ w4tState with restartTimeout := none, isRestarting := false }, []) := by
  obtain ⟨p1, p2⟩ := C4_stop_quiesces
  have e1 : jsTrim (jsJoin " " ["oi"]) = "oi" := by decide
  have e5 : jsTake 50 "oi" = "oi" := by decide
  have e6 : ¬ (50 < ("oi" : String).length) := by decide
  have hw1 : ¬ ((50 : ℚ) < 0 + 1) := by norm_num
  have hw2 : ¬ ((50 : ℚ) < 1) := by norm_num
  have h := p1 pureCallbacks 5000 w4State w4Result w4Fx rfl ?hr
  case hr =>
    simp [stop, w4State, w4Result, w4Fx, baseState, processBufferedResults,
      abortStartedFx, abortPrimaryFx, dbg_eq, setBanner_eq, emitStatus_eq,
      emitTimer_eq, emitTranscript_eq, emitPartialText_eq, scheduleAutosave_eq,
      ok_bind, pure, Except.pure, timerText, renderTranscript, e1, e5, e6,
      hw1, hw2]
  obtain ⟨a1, a2, a3, a4, a5, a6, a7, a8⟩ := h
  exact ⟨⟨a1, a2, a3, a4, a5, a6 wEnv, a7 9000, a8⟩,
    p2 wEnv pureCallbacks w4tState "backup" 200 rfl rfl⟩

/- ── C5: the error-storm cooldown breaker ───────────────────────────── -/

theorem startCount_abortPrimary (s : BridgeState) :
    List.countP isStartCmd (abortPrimaryFx s) = 0 := by
  unfold abortPrimaryFx
  cases s.recognition with
  | none => rfl
  | some r =>
    by_cases hb : r.isStarted = true <;>
      simp [hb, isStartCmd, List.countP_cons]

/-- C5 counterexample: when the error counter reaches the threshold, the
    breaker resets the counters and arms the cooldown, but it does not
    cancel the already-armed restart timer, which then fires and performs a
    restart attempt (a start command) while the cooldown pause is still
    pending; restart attempts are therefore not all suspended for the
    pause. -/
theorem C5_counterexample :
    onerrorHandler pureCallbacks "primary" "network" 50 c5State = .ok (c5s1, c5Fx1) ∧
    c5s1.cooldownTimer = true ∧
    c5s1.restartTimeout = some ("primary", 100) ∧
    fireRestart env0 pureCallbacks c5s1 = .ok (c5s2, c5Fx2) ∧
    c5s2.cooldownTimer = true ∧
    Effect.startSession "backup" ∈ c5Fx2 := by
  refine ⟨?_, rfl, rfl, ?_, rfl, by simp [c5Fx2]⟩
  · simp [onerrorHandler, handleTooManyErrors, incrementRetryDelay, c5State,
      c5s1, c5Fx1, baseState, MAX_CONSECUTIVE_ERRORS, dbg_eq, setBanner_eq,
      ok_bind, pure, Except.pure]
  · simp [fireRestart, performDualRestart, USE_DUAL_RECOGNITION, env0,
      c5s1, c5s2, c5Fx2, c5State, baseState, dbg_eq, ok_bind, pure,
      Except.pure]

/-- C5 amended: reaching the error threshold resets the error counter and
    the backoff delay and arms the fixed 3000 ms cooldown timeout; when that
    timeout fires with intent cleared it does nothing, and when it fires
    with intent still recording it performs exactly one restart attempt
    (one start command); however, already-pending restart timers are not
    cancelled or suspended during the pause. -/
theorem C5_cooldown_behavior :
    (∀ cb s s' fx, handleTooManyErrors cb s = .ok (s', fx) →
      s' = { s with consecutiveErrors := 0,
                    retryDelay := INITIAL_RETRY_DELAY_MS,
                    cooldownTimer := true }) ∧
    (∀ env cb t, t.cooldownTimer = true → t.shouldBeRecording = false →
      fireCooldown env cb t = .ok ({ t with cooldownTimer := false }, [])) ∧
    (∀ env cb t s' fx, t.cooldownTimer = true → t.shouldBeRecording = true →
      env.srAvailable = true → env.startThrows = false →
      fireCooldown env cb t = .ok (s', fx) →
      startCount fx = 1) := by
  refine ⟨?_, ?_, ?_⟩
  · intro cb s s' fx hr
    simp only [handleTooManyErrors, ok_bind, dbg_eq, setBanner_eq, pure,
      Except.pure, Except.ok.injEq, Prod.mk.injEq] at hr
    exact hr.1.symm
  · intro env cb t h1 h2
    simp [fireCooldown, h1, h2, pure, Except.pure]
  · intro env cb t s' fx h1 h2 h3 h4 hr
    have hins : ∀ lbl, createRecognitionInstance env lbl ≠ none := by
      intro lbl
      simp [createRecognitionInstance, h3]
    simp only [fireCooldown, ok_bind, dbg_eq, setBanner_eq, pure,
      Except.pure] at hr
    rw [if_pos h1] at hr
    rw [if_pos (show ({ t with cooldownTimer := false } : BridgeState).shouldBeRecording = true from h2)] at hr
    by_cases hn : t.recognition = none
    · simp only [performSingleRestart, ok_bind, dbg_eq, pure, Except.pure] at hr
      rw [if_neg (by simp [h2])] at hr
      rw [if_pos (show ({ t with cooldownTimer := false } : BridgeState).recognition = none from hn)] at hr
      rw [if_pos (by exact ⟨hins "primary", by simp [h4]⟩)] at hr
      simp only [ok_bind, pure, Except.pure, Except.ok.injEq, Prod.mk.injEq] at hr
      obtain ⟨_, hfx⟩ := hr
      subst hfx
      simp [startCount, List.countP_append, List.countP_cons, isStartCmd,
        startCount_abortPrimary]
    · simp only [performSingleRestart, ok_bind, dbg_eq, pure, Except.pure] at hr
      rw [if_neg (by simp [h2])] at hr
      rw [if_neg (show ¬ ({ t with cooldownTimer := false } : BridgeState).recognition = none from hn)] at hr
      rw [if_pos (by exact ⟨hn, by simp [h4]⟩)] at hr
      simp only [ok_bind, pure, Except.pure, Except.ok.injEq, Prod.mk.injEq] at hr
      obtain ⟨_, hfx⟩ := hr
      subst hfx
      simp [startCount, List.countP_append, List.countP_cons, isStartCmd,
        startCount_abortPrimary]

theorem C5_cooldown_behavior_witness :
    w5Result = { w5State with consecutiveErrors := 0,
                              retryDelay := INITIAL_RETRY_DELAY_MS,
                              cooldownTimer := true } ∧
    fireCooldown env0 pureCallbacks w5Result =
      .ok ({ w5Result with cooldownTimer := false }, []) ∧
    startCount w5Fx3 = 1 := by
  obtain ⟨p1, p2, p3⟩ := C5_cooldown_behavior
  refine ⟨?_, p2 env0 pureCallbacks w5Result rfl rfl, ?_⟩
  · refine p1 pureCallbacks w5State w5Result w5Fx1 ?_
    simp [handleTooManyErrors, w5State, w5Result, w5Fx1, baseState, dbg_eq,
      setBanner_eq, ok_bind, pure, Except.pure]
  · refine p3 env0 pureCallbacks w5t3 w5s3 w5Fx3 rfl rfl rfl rfl ?_
    simp [fireCooldown, performSingleRestart, createRecognitionInstance,
      resolveLang, env0, abortPrimaryFx, w5t3, w5s3, w5Fx3, baseState,
      dbg_eq, setBanner_eq, ok_bind, pure, Except.pure]

/- ── C6: benign errors leave the engine untouched ───────────────────── -/

/-- C6: a benign error event (no-speech or aborted) changes nothing in the
    engine state except the liveness timestamp, and its only emissions are
    debug lines: in particular the error counter, the backoff delay and the
    restart timer are exactly as before, and no banner, status change or
    session command is produced. -/
theorem C6_benign_no_state_change (cb : Callbacks) (lbl : String) (now : Nat)
    (s : BridgeState) (code : String)
    (h : code = "no-speech" ∨ code = "aborted") :
    ∃ fx, onerrorHandler cb lbl code now s =
        .ok ({ s with lastEventTime := now }, fx) ∧
      ∀ e ∈ fx, ∃ m, e = Effect.debug m := by
  rcases h with h | h <;> subst h
  · refine ⟨[.debug ("[" ++ lbl ++ "] Erro: " ++ "no-speech"),
      .debug ("[" ++ lbl ++ "] Nenhuma fala detectada, continuando...")], ?_, ?_⟩
    · simp [onerrorHandler, dbg_eq, ok_bind, pure, Except.pure]
    · intro e he
      simp only [List.mem_cons, List.not_mem_nil, or_false] at he
      rcases he with he | he <;> exact ⟨_, he⟩
  · refine ⟨[.debug ("[" ++ lbl ++ "] Erro: " ++ "aborted"),
      .debug ("[" ++ lbl ++ "] Abortado")], ?_, ?_⟩
    · simp [onerrorHandler, dbg_eq, ok_bind, pure, Except.pure]
    · intro e he
      simp only [List.mem_cons, List.not_mem_nil, or_false] at he
      rcases he with he | he <;> exact ⟨_, he⟩

theorem C6_benign_no_state_change_witness :
    ∃ fx, onerrorHandler pureCallbacks "primary" "aborted" 123 baseState =
        .ok ({ baseState with lastEventTime := 123 }, fx) ∧
      ∀ e ∈ fx, ∃ m, e = Effect.debug m :=
  C6_benign_no_state_change pureCallbacks "primary" 123 baseState "aborted"
    (Or.inr rfl)

/- ── C7: success resets the retry state ─────────────────────────────── -/

@[simp] theorem addFinalResult_retryDelay (t : String) (s : BridgeState) :
    (addFinalResult t s).retryDelay = s.retryDelay := by
  unfold addFinalResult; split <;> rfl

@[simp] theorem addFinalResult_consecutiveErrors (t : String) (s : BridgeState) :
    (addFinalResult t s).consecutiveErrors = s.consecutiveErrors := by
  unfold addFinalResult; split <;> rfl

@[simp] theorem resultStep_retryDelay (p : BridgeState × String)
    (r : Bool × String) :
    (resultStep p r).1.retryDelay = p.1.retryDelay := by
  unfold resultStep; split <;> simp

@[simp] theorem resultStep_consecutiveErrors (p : BridgeState × String)
    (r : Bool × String) :
    (resultStep p r).1.consecutiveErrors = p.1.consecutiveErrors := by
  unfold resultStep; split <;> simp

theorem foldl_resultStep_retry (results : List (Bool × String))
    (p : BridgeState × String) :
    ((results.foldl resultStep p).1.retryDelay = p.1.retryDelay) ∧
    ((results.foldl resultStep p).1.consecutiveErrors = p.1.consecutiveErrors) := by
  induction results generalizing p with
  | nil => exact ⟨rfl, rfl⟩
  | cons r rs ih =>
    simp only [List.foldl_cons]
    refine ⟨?_, ?_⟩
    · rw [(ih (resultStep p r)).1, resultStep_retryDelay]
    · rw [(ih (resultStep p r)).2, resultStep_consecutiveErrors]

/-- C7: after any successful session start event and after any recognized
    result event, the backoff delay equals its 100 ms floor and the
    consecutive-error counter equals zero, whatever they were before. -/
theorem C7_success_resets :
    (∀ cb lbl now s s1 fx1, onstartHandler cb lbl now s = .ok (s1, fx1) →
      s1.retryDelay = 100 ∧ s1.consecutiveErrors = 0) ∧
    (∀ cb now results s s2 fx2, onresultHandler cb now results s = .ok (s2, fx2) →
      s2.retryDelay = 100 ∧ s2.consecutiveErrors = 0) := by
  constructor
  · intro cb lbl now s s1 fx1 hr
    simp only [onstartHandler, ok_bind, dbg_eq, emitStatus_eq, pure,
      Except.pure] at hr
    by_cases hc : (resetRetryState (touchWatchdog (setRecStarted lbl true s) now)).shouldBeRecording = true ∧
        ¬ (resetRetryState (touchWatchdog (setRecStarted lbl true s) now)).isRecording = true
    · rw [if_pos hc] at hr
      simp only [Except.ok.injEq, Prod.mk.injEq] at hr
      obtain ⟨h1, _⟩ := hr
      subst h1
      exact ⟨rfl, rfl⟩
    · rw [if_neg hc] at hr
      simp only [Except.ok.injEq, Prod.mk.injEq] at hr
      obtain ⟨h1, _⟩ := hr
      subst h1
      exact ⟨rfl, rfl⟩
  · intro cb now results s s2 fx2 hr
    have hfold := foldl_resultStep_retry results
      (resetRetryState (touchWatchdog s now), "")
    simp only [onresultHandler, ok_bind, emitPartialText_eq, pure,
      Except.pure] at hr
    by_cases hi : ¬ (results.foldl resultStep
        (resetRetryState (touchWatchdog s now), "")).2 = ""
    · rw [if_pos hi] at hr
      simp only [Except.ok.injEq, Prod.mk.injEq] at hr
      obtain ⟨h1, _⟩ := hr
      subst h1
      exact ⟨hfold.1, hfold.2⟩
    · rw [if_neg hi] at hr
      by_cases hp : ¬ (results.foldl resultStep
          (resetRetryState (touchWatchdog s now), "")).1.partialText = ""
      · rw [if_pos hp] at hr
        simp only [Except.ok.injEq, Prod.mk.injEq] at hr
        obtain ⟨h1, _⟩ := hr
        subst h1
        exact ⟨hfold.1, hfold.2⟩
      · rw [if_neg hp] at hr
        simp only [Except.ok.injEq, Prod.mk.injEq] at hr
        obtain ⟨h1, _⟩ := hr
        subst h1
        exact ⟨hfold.1, hfold.2⟩

theorem C7_success_resets_witness :
    (∃ s1 fx1, onstartHandler pureCallbacks "primary" 11 w7State = .ok (s1, fx1) ∧
      s1.retryDelay = 100 ∧ s1.consecutiveErrors = 0) ∧
    (∃ s2 fx2, onresultHandler pureCallbacks 12 [(true, "oi")] w7State = .ok (s2, fx2) ∧
      s2.retryDelay = 100 ∧ s2.consecutiveErrors = 0) := by
  obtain ⟨p1, p2⟩ := C7_success_resets
  have e7 : jsTrim "oi" = "oi" := by decide
  have h1 : onstartHandler pureCallbacks "primary" 11 w7State =
      .ok (w7s1, [.debug "[primary] Reconhecimento iniciado"]) := by
    simp [onstartHandler, w7State, w7s1, baseState, setRecStarted,
      touchWatchdog, resetRetryState, dbg_eq, ok_bind, pure, Except.pure]
  have h2 : onresultHandler pureCallbacks 12 [(true, "oi")] w7State =
      .ok (w7s2, []) := by
    simp [onresultHandler, w7State, w7s2, baseState, resultStep,
      addFinalResult, e7, touchWatchdog, resetRetryState, emitPartialText_eq,
      dbg_eq, ok_bind, pure, Except.pure]
  exact ⟨⟨w7s1, _, h1, p1 _ _ _ _ _ _ h1⟩, ⟨w7s2, _, h2, p2 _ _ _ _ _ _ h2⟩⟩

/- ── C8: setLanguage is synchronous and effect-free beyond the tags ──── -/

/-- C8: calling setLanguage "en" while both session handles exist rewrites
    both language tags to en-US immediately and changes nothing else: the
    resulting state differs only in the two lang fields, and the only
    emission is a debug line, so no session command is sent and no restart
    is armed. -/
theorem C8_setLanguage_sync (cb : Callbacks) (s : BridgeState)
    (r1 r2 : RecInstance)
    (h1 : s.recognition = some r1) (h2 : s.recognitionBackup = some r2) :
    setLanguage cb "en" s =
      .ok ({ s with recognition := some { r1 with lang := "en-US" },
                    recognitionBackup := some { r2 with lang := "en-US" } },
           [Effect.debug ("Idioma alterado para: " ++ "en-US")]) := by
  simp [setLanguage, h1, h2, dbg_eq, ok_bind, pure, Except.pure]

theorem C8_setLanguage_sync_witness :
    setLanguage pureCallbacks "en" c8State =
      .ok ({ c8State with
              recognition := some { label := "primary", lang := "en-US", isStarted := true },
              recognitionBackup := some { label := "backup", lang := "en-US", isStarted := false } },
           [Effect.debug ("Idioma alterado para: " ++ "en-US")]) := by
  have h := C8_setLanguage_sync pureCallbacks c8State
    { label := "primary", lang := "pt-BR", isStarted := true }
    { label := "backup", lang := "pt-BR", isStarted := false } rfl rfl
  simpa using h

/- ── C9: consumer callbacks cannot corrupt the engine ───────────────── -/

theorem handleTooManyErrors_cb_irrel (cb : Callbacks) (s : BridgeState) :
    handleTooManyErrors cb s = handleTooManyErrors pureCallbacks s := by
  simp [handleTooManyErrors, dbg_eq, setBanner_eq, ok_bind, pure, Except.pure]

theorem processBufferedResults_cb_irrel (cb : Callbacks) (s : BridgeState) :
    processBufferedResults cb s = processBufferedResults pureCallbacks s := by
  simp only [processBufferedResults, ok_bind, dbg_eq, emitTranscript_eq,
    scheduleAutosave_eq, pure, Except.pure]

theorem stop_cb_irrel (cb : Callbacks) (now : Nat) (s : BridgeState) :
    stop cb now s = stop pureCallbacks now s := by
  simp only [stop, ok_bind, dbg_eq, emitPartialText_eq, emitStatus_eq,
    emitTimer_eq, scheduleAutosave_eq, setBanner_eq, pure, Except.pure,
    processBufferedResults_cb_irrel]

theorem onerror_cb_irrel (cb : Callbacks) (lbl code : String) (now : Nat)
    (s : BridgeState) :
    onerrorHandler cb lbl code now s = onerrorHandler pureCallbacks lbl code now s := by
  simp [onerrorHandler, ok_bind, dbg_eq, setBanner_eq, emitStatus_eq, pure,
    Except.pure, handleTooManyErrors_cb_irrel cb]

theorem performSingleRestart_cb_irrel (env : Env) (cb : Callbacks)
    (s : BridgeState) :
    performSingleRestart env cb s = performSingleRestart env pureCallbacks s := by
  simp only [performSingleRestart, ok_bind, dbg_eq, pure, Except.pure,
    handleTooManyErrors_cb_irrel]

theorem performDualRestart_cb_irrel (env : Env) (cb : Callbacks)
    (lbl : String) (s : BridgeState) :
    performDualRestart env cb lbl s = performDualRestart env pureCallbacks lbl s := by
  simp only [performDualRestart, ok_bind, dbg_eq, pure, Except.pure,
    handleTooManyErrors_cb_irrel]

theorem fireRestart_cb_irrel (env : Env) (cb : Callbacks) (s : BridgeState) :
    fireRestart env cb s = fireRestart env pureCallbacks s := by
  simp only [fireRestart, performSingleRestart_cb_irrel,
    performDualRestart_cb_irrel]

theorem fireCooldown_cb_irrel (env : Env) (cb : Callbacks) (s : BridgeState) :
    fireCooldown env cb s = fireCooldown env pureCallbacks s := by
  simp only [fireCooldown, ok_bind, dbg_eq, setBanner_eq, pure, Except.pure,
    performSingleRestart_cb_irrel]

theorem fireWatchdogTick_cb_irrel (cb : Callbacks) (now : Nat)
    (s : BridgeState) :
    fireWatchdogTick cb now s = fireWatchdogTick pureCallbacks now s := by
  simp only [fireWatchdogTick, ok_bind, dbg_eq, pure, Except.pure]

theorem fireDebounce_cb_irrel (cb : Callbacks) (s : BridgeState) :
    fireDebounce cb s = fireDebounce pureCallbacks s := by
  simp only [fireDebounce, processBufferedResults_cb_irrel]

theorem onstart_cb_irrel (cb : Callbacks) (lbl : String) (now : Nat)
    (s : BridgeState) :
    onstartHandler cb lbl now s = onstartHandler pureCallbacks lbl now s := by
  simp only [onstartHandler, ok_bind, dbg_eq, emitStatus_eq, pure, Except.pure]

theorem onend_cb_irrel (cb : Callbacks) (lbl : String) (now : Nat)
    (s : BridgeState) :
    onendHandler cb lbl now s = onendHandler pureCallbacks lbl now s := by
  simp only [onendHandler, ok_bind, dbg_eq, emitStatus_eq, pure, Except.pure]

theorem onresult_cb_irrel (cb : Callbacks) (now : Nat)
    (results : List (Bool × String)) (s : BridgeState) :
    onresultHandler cb now results s = onresultHandler pureCallbacks now results s := by
  simp only [onresultHandler, ok_bind, emitPartialText_eq, pure, Except.pure]

theorem setLanguage_cb_irrel (cb : Callbacks) (lang : String) (s : BridgeState) :
    setLanguage cb lang s = setLanguage pureCallbacks lang s := by
  simp only [setLanguage, ok_bind, dbg_eq, pure, Except.pure]

/-- C9: every consumer callback invocation is wrapped in a try/catch whose
    catch block is empty, so a throwing callback can neither propagate its
    exception out of the engine nor change what the engine does: each
    wrapper returns normally with the same emission for every callback, and
    every engine operation (the flush, stop, all session event handlers,
    setLanguage and all timer callbacks) computes the same state and
    emission list for an arbitrary throwing callback set as for callbacks
    that return normally; the flush moreover always returns normally. -/
theorem C9_callback_isolation :
    (∀ cb m, dbg cb m = .ok [.debug m]) ∧
    (∀ cb m, setBanner cb m = .ok [.banner m]) ∧
    (∀ cb s, emitStatus cb s = .ok [.status s.isRecording]) ∧
    (∀ cb s now, emitTimer cb s now = .ok [.timer (timerText s now)]) ∧
    (∀ cb s, emitTranscript cb s = .ok [.transcript (renderTranscript s)]) ∧
    (∀ cb s, emitPartialText cb s = .ok [.partialUpd s.partialText]) ∧
    (∀ cb, scheduleAutosave cb = .ok [.autosave]) ∧
    (∀ cb s, processBufferedResults cb s = processBufferedResults pureCallbacks s) ∧
    (∀ cb now s, stop cb now s = stop pureCallbacks now s) ∧
    (∀ cb lbl code now s,
      onerrorHandler cb lbl code now s = onerrorHandler pureCallbacks lbl code now s) ∧
    (∀ cb lbl now s, onstartHandler cb lbl now s = onstartHandler pureCallbacks lbl now s) ∧
    (∀ cb lbl now s, onendHandler cb lbl now s = onendHandler pureCallbacks lbl now s) ∧
    (∀ cb now results s,
      onresultHandler cb now results s = onresultHandler pureCallbacks now results s) ∧
    (∀ cb lang s, setLanguage cb lang s = setLanguage pureCallbacks lang s) ∧
    (∀ env cb s, fireRestart env cb s = fireRestart env pureCallbacks s) ∧
    (∀ env cb s, fireCooldown env cb s = fireCooldown env pureCallbacks s) ∧
    (∀ cb now s, fireWatchdogTick cb now s = fireWatchdogTick pureCallbacks now s) ∧
    (∀ cb s, fireDebounce cb s = fireDebounce pureCallbacks s) ∧
    (∀ cb s, ∃ p, processBufferedResults cb s = .ok p) :=
  ⟨dbg_eq, setBanner_eq, emitStatus_eq, emitTimer_eq, emitTranscript_eq,
   emitPartialText_eq, scheduleAutosave_eq, processBufferedResults_cb_irrel,
   stop_cb_irrel, onerror_cb_irrel, onstart_cb_irrel, onend_cb_irrel,
   onresult_cb_irrel, setLanguage_cb_irrel, fireRestart_cb_irrel,
   fireCooldown_cb_irrel, fireWatchdogTick_cb_irrel, fireDebounce_cb_irrel,
   processBufferedResults_exists⟩

/- ── C10: setNLines and getNLines ─────────────────────────────────────── -/

/-- C10: setNLines stores Number(v) exactly when it is a finite number at
    least zero and otherwise leaves the state untouched, and getNLines
    always returns the stored count. -/
theorem C10_setNLines_guard (v : JSNum) (s : BridgeState) :
    setNLines v s =
      (if jsFiniteNonneg v then { s with nLines := jsNumValue v } else s) ∧
    getNLines (setNLines v s) = (setNLines v s).nLines := by
  refine ⟨?_, rfl⟩
  cases v with
  | nan => rfl
  | posInf => rfl
  | negInf => rfl
  | num q =>
    by_cases hq : (0 : ℚ) ≤ q <;>
      simp [setNLines, jsFiniteNonneg, JSNum.isFiniteJS, JSNum.geZeroJS,
        JSNum.valJS, jsNumValue, hq]

end SpeechBridge
